import Mathlib

/-!
Verification of the durability / directory layer of longbridge/quickfix:
the GORM-backed message store (`gromStore`, `gormStoreFactory`) and the
process-wide session registry (`Send`, `SendToTarget`, `registerSession`,
`UnregisterSession`, `lookupSession`).

The Go code is shallowly embedded as pure state-passing functions.
Durable (database) operations are parametrised by explicit boolean
fault flags: `false` means the underlying SQL statement succeeds,
`true` means it reports an error (leaving the database unchanged, as a
failed SQL statement does).  Go's `(result, error)` returns become
`Option GoErr × State` pairs, with `none` playing the role of a nil
error.
-/

/-- Errors, mirroring the Go `error` values produced by the embedded code.
`wrap ctx e` models `errors.Wrap(e, ctx)` from github.com/pkg/errors. -/
inductive GoErr where
  | dbErr : String → GoErr
  | recordNotFound : GoErr
  | unknownSessionCreate : GoErr
  | testError : GoErr
  | wrap : String → GoErr → GoErr
  | duplicateSessionID : GoErr
  | unknownSession : GoErr
  | conditionallyRequiredFieldMissing : Nat → GoErr
  | boolSettingErr : String → GoErr
  | queueErr : String → GoErr
  | cacheOverflow : GoErr
deriving DecidableEq, Repr

/-- Whether an error was produced by `errors.Wrap`. -/
def GoErr.isWrapped : GoErr → Bool
  | .wrap _ _ => true
  | _ => false

/-- SessionID value type (src/registry.go, sessionid.go callers): eight
string fields, structural equality. -/
structure SessionID where
  BeginString : String
  TargetCompID : String
  TargetSubID : String
  TargetLocationID : String
  SenderCompID : String
  SenderSubID : String
  SenderLocationID : String
  Qualifier : String
deriving DecidableEq, Repr

/-- Modelled from the spec: the `SequenceCache` / `memoryStore` is not under
src/ (only its callers are).  Per spec §3 it is the in-memory record
`{creationTime, nextSenderSeqNum ≥ 1, nextTargetSeqNum ≥ 1}` owned by one
MessageStore; timestamps are modelled as integers. -/
structure memoryStore where
  creationTime : Int
  nextSenderSeqNum : Int
  nextTargetSeqNum : Int
deriving DecidableEq, Repr

/-- Largest value of Go's 64-bit `int`, the representable range the spec's
overflow remark refers to. -/
def goIntMax : Int := 2 ^ 63 - 1

/-- Modelled from the spec: cache read `NextSenderMsgSeqNum`, pure, never
fails (spec §4.2). -/
def memoryStore.NextSenderMsgSeqNum (c : memoryStore) : Int :=
  c.nextSenderSeqNum

/-- Modelled from the spec: cache read `NextTargetMsgSeqNum`, pure, never
fails (spec §4.2). -/
def memoryStore.NextTargetMsgSeqNum (c : memoryStore) : Int :=
  c.nextTargetSeqNum

/-- Modelled from the spec: cache read `CreationTime` (spec §4.2). -/
def memoryStore.CreationTime (c : memoryStore) : Int :=
  c.creationTime

/-- Modelled from the spec: the cache-level mirror step of `Set…SeqNum`
stores the value; the spec attributes no failure mode to it. -/
def memoryStore.SetNextSenderMsgSeqNum (n : Int) (c : memoryStore) :
    Option GoErr × memoryStore :=
  (none, { c with nextSenderSeqNum := n })

/-- Modelled from the spec: cache-level mirror step for the target counter. -/
def memoryStore.SetNextTargetMsgSeqNum (n : Int) (c : memoryStore) :
    Option GoErr × memoryStore :=
  (none, { c with nextTargetSeqNum := n })

/-- Modelled from the spec: the in-memory increment "advances the
respective counter by 1" and fails exactly when the new value "would
overflow the representable range" (spec §4.2), in which case the cache is
left untouched. -/
def memoryStore.IncrNextSenderMsgSeqNum (c : memoryStore) :
    Option GoErr × memoryStore :=
  if goIntMax < c.nextSenderSeqNum + 1 then (some .cacheOverflow, c)
  else (none, { c with nextSenderSeqNum := c.nextSenderSeqNum + 1 })

/-- Modelled from the spec: in-memory increment of the target counter. -/
def memoryStore.IncrNextTargetMsgSeqNum (c : memoryStore) :
    Option GoErr × memoryStore :=
  if goIntMax < c.nextTargetSeqNum + 1 then (some .cacheOverflow, c)
  else (none, { c with nextTargetSeqNum := c.nextTargetSeqNum + 1 })

/-- Modelled from the spec: `Reset` sets both counters back to 1 and the
creation time to "now" (spec §3 lifecycle, §4.2); it reports no failure. -/
def memoryStore.Reset (now : Int) (_c : memoryStore) :
    Option GoErr × memoryStore :=
  (none, { creationTime := now, nextSenderSeqNum := 1, nextTargetSeqNum := 1 })

/-- One row of the `sessions` table (struct GormSessions). -/
structure GormSessions where
  sessionID : SessionID
  creationTime : Int
  incomingSeqNum : Int
  outgoingSeqNum : Int
deriving DecidableEq, Repr

/-- One row of the `messages` table (struct GormMessages); the message
body is a byte string. -/
structure GormMessages where
  sessionID : SessionID
  msgSeqNum : Int
  message : List Nat
deriving DecidableEq, Repr

/-- The relational backend state: the two tables the store touches, the
flags saying whether each table has been created yet (for
`Migrator().HasTable` / `CreateTable`), and the count of open rows in the
test-scaffolding table `fix_test` consulted by `SaveMessage`. -/
structure DB where
  hasSessionsTable : Bool
  hasMessagesTable : Bool
  sessions : List GormSessions
  messages : List GormMessages
  fixTestOpen : Int
deriving DecidableEq, Repr

/-- `UPDATE sessions SET outgoing_seqnum=n WHERE <all eight SessionID
columns match>`; on failure the table is unchanged. -/
def DB.updateOutgoingSeqNum (fail : Bool) (sid : SessionID) (n : Int)
    (db : DB) : Option GoErr × DB :=
  if fail then (some (.dbErr "update outgoing_seqnum"), db)
  else (none, { db with sessions := db.sessions.map fun r =>
    if r.sessionID = sid then { r with outgoingSeqNum := n } else r })

/-- `UPDATE sessions SET incoming_seqnum=n WHERE <SessionID matches>`. -/
def DB.updateIncomingSeqNum (fail : Bool) (sid : SessionID) (n : Int)
    (db : DB) : Option GoErr × DB :=
  if fail then (some (.dbErr "update incoming_seqnum"), db)
  else (none, { db with sessions := db.sessions.map fun r =>
    if r.sessionID = sid then { r with incomingSeqNum := n } else r })

/-- The `Updates` statement issued by `Reset`: set creation_time,
incoming_seqnum and outgoing_seqnum of the matching session rows. -/
def DB.updateSessionReset (fail : Bool) (sid : SessionID)
    (ct incoming outgoing : Int) (db : DB) : Option GoErr × DB :=
  if fail then (some (.dbErr "update session"), db)
  else (none, { db with sessions := db.sessions.map fun r =>
    if r.sessionID = sid then
      { r with creationTime := ct, incomingSeqNum := incoming,
               outgoingSeqNum := outgoing }
    else r })

/-- `DELETE FROM messages WHERE <SessionID matches>`. -/
def DB.deleteMessages (fail : Bool) (sid : SessionID) (db : DB) :
    Option GoErr × DB :=
  if fail then (some (.dbErr "delete messages"), db)
  else (none, { db with messages := db.messages.filter fun m =>
    ¬ m.sessionID = sid })

/-- `INSERT INTO sessions VALUES(...)`. -/
def DB.insertSession (fail : Bool) (rec : GormSessions) (db : DB) :
    Option GoErr × DB :=
  if fail then (some (.dbErr "insert session"), db)
  else (none, { db with sessions := db.sessions ++ [rec] })

/-- `INSERT INTO messages VALUES(...)`; a failure (uniqueness violation or
transient error) leaves the table unchanged. -/
def DB.insertMessage (fail : Bool) (rec : GormMessages) (db : DB) :
    Option GoErr × DB :=
  if fail then (some (.dbErr "insert message"), db)
  else (none, { db with messages := db.messages ++ [rec] })

/-- The `First(&dest)` lookup of the session row: an error, the first
matching row, or `gorm.ErrRecordNotFound`. -/
def DB.findSession (fail : Bool) (sid : SessionID) (db : DB) :
    Except GoErr GormSessions :=
  if fail then .error (.dbErr "find session")
  else match db.sessions.find? (fun r => r.sessionID = sid) with
    | some r => .ok r
    | none => .error .recordNotFound

/-- `SELECT count(*) FROM messages WHERE <SessionID matches> AND
msgseqnum=?` (the `Limit(1)` in the source does not cap an SQL aggregate,
so this is the true count). -/
def DB.countMessages (sid : SessionID) (seqNum : Int) (db : DB) : Int :=
  ((db.messages.filter fun m =>
    m.sessionID = sid ∧ m.msgSeqNum = seqNum).length : Int)

/-- The gorm-backed message store: its session key, its in-memory cache
and its handle on the shared database (src/unnamed/part_000, struct
gromStore). -/
structure gromStore where
  sessionID : SessionID
  cache : memoryStore
  db : DB
deriving DecidableEq, Repr

/-- `gromStore.NextSenderMsgSeqNum`: pure cache read. -/
def gromStore.NextSenderMsgSeqNum (st : gromStore) : Int :=
  st.cache.NextSenderMsgSeqNum

/-- `gromStore.NextTargetMsgSeqNum`: pure cache read. -/
def gromStore.NextTargetMsgSeqNum (st : gromStore) : Int :=
  st.cache.NextTargetMsgSeqNum

/-- `gromStore.CreationTime`: pure cache read. -/
def gromStore.CreationTime (st : gromStore) : Int :=
  st.cache.CreationTime

/-- `gromStore.SetNextSenderMsgSeqNum`: issue the durable UPDATE of
outgoing_seqnum; on error return it, otherwise mirror into the cache. -/
def gromStore.SetNextSenderMsgSeqNum (updateFail : Bool) (next : Int)
    (st : gromStore) : Option GoErr × gromStore :=
  match DB.updateOutgoingSeqNum updateFail st.sessionID next st.db with
  | (some e, db1) => (some e, { st with db := db1 })
  | (none, db1) =>
    let (r, c1) := st.cache.SetNextSenderMsgSeqNum next
    (r, { st with db := db1, cache := c1 })

/-- `gromStore.SetNextTargetMsgSeqNum`: durable UPDATE of incoming_seqnum
first, then the cache mirror. -/
def gromStore.SetNextTargetMsgSeqNum (updateFail : Bool) (next : Int)
    (st : gromStore) : Option GoErr × gromStore :=
  match DB.updateIncomingSeqNum updateFail st.sessionID next st.db with
  | (some e, db1) => (some e, { st with db := db1 })
  | (none, db1) =>
    let (r, c1) := st.cache.SetNextTargetMsgSeqNum next
    (r, { st with db := db1, cache := c1 })

/-- `gromStore.IncrNextSenderMsgSeqNum`: increment the cache (wrapping a
failure as "cache incr next"), then call Set with the cache's new value. -/
def gromStore.IncrNextSenderMsgSeqNum (updateFail : Bool)
    (st : gromStore) : Option GoErr × gromStore :=
  match st.cache.IncrNextSenderMsgSeqNum with
  | (some e, c1) => (some (.wrap "cache incr next" e), { st with cache := c1 })
  | (none, c1) =>
    gromStore.SetNextSenderMsgSeqNum updateFail c1.NextSenderMsgSeqNum
      { st with cache := c1 }

/-- `gromStore.IncrNextTargetMsgSeqNum`: cache increment then Set. -/
def gromStore.IncrNextTargetMsgSeqNum (updateFail : Bool)
    (st : gromStore) : Option GoErr × gromStore :=
  match st.cache.IncrNextTargetMsgSeqNum with
  | (some e, c1) => (some (.wrap "cache incr next" e), { st with cache := c1 })
  | (none, c1) =>
    gromStore.SetNextTargetMsgSeqNum updateFail c1.NextTargetMsgSeqNum
      { st with cache := c1 }

/-- `gromStore.SaveMessage`: consult the `fix_test` scaffolding gate, then
attempt the INSERT; if the insert errors, re-count the rows already stored
for (SessionID, seqNum) — the count query's own error is ignored by the
source, so `countFail` makes the Go counter keep its zero value — and
swallow the insert error exactly when the counter is 1. -/
def gromStore.SaveMessage (insertFail countFail : Bool) (seqNum : Int)
    (msg : List Nat) (st : gromStore) : Option GoErr × gromStore :=
  if 1 < st.db.fixTestOpen then (some .testError, st)
  else
    match DB.insertMessage insertFail ⟨st.sessionID, seqNum, msg⟩ st.db with
    | (none, db1) => (none, { st with db := db1 })
    | (some e, db1) =>
      let counter : Int :=
        if countFail then 0 else DB.countMessages st.sessionID seqNum db1
      if counter = 1 then (none, { st with db := db1 })
      else (some e, { st with db := db1 })

/-- The comparison used for the `ORDER BY msgseqnum` clause. -/
def msgSeqLe (a b : GormMessages) : Prop :=
  a.msgSeqNum ≤ b.msgSeqNum

instance : DecidableRel msgSeqLe := fun a b =>
  inferInstanceAs (Decidable (a.msgSeqNum ≤ b.msgSeqNum))

instance : IsTotal GormMessages msgSeqLe :=
  ⟨fun a b => Int.le_total a.msgSeqNum b.msgSeqNum⟩

instance : IsTrans GormMessages msgSeqLe :=
  ⟨fun _ _ _ hab hbc => le_trans hab hbc⟩

/-- The rows the `SELECT` in `GetMessages` matches: this session's rows
with `msgseqnum>=b AND msgseqnum<=e`. -/
def DB.messagesInRange (sid : SessionID) (b e : Int) (db : DB) :
    List GormMessages :=
  db.messages.filter fun m =>
    m.sessionID = sid ∧ b ≤ m.msgSeqNum ∧ m.msgSeqNum ≤ e

/-- `gromStore.GetMessages`: the ranged SELECT ordered by msgseqnum; each
returned row's `message` column, in query order.  `fail` covers the
query/scan error paths, on which Go returns `(nil, err)`. -/
def gromStore.GetMessages (fail : Bool) (b e : Int) (st : gromStore) :
    Option GoErr × List (List Nat) :=
  if fail then (some (.dbErr "query messages"), [])
  else (none,
    ((st.db.messagesInRange st.sessionID b e).insertionSort msgSeqLe).map
      GormMessages.message)

/-- `gromStore.Reset`: DELETE this session's messages, reset the cache to
`{now, 1, 1}`, then persist creation time and both counters with an
UPDATE of the existing session row. -/
def gromStore.Reset (deleteFail updateFail : Bool) (now : Int)
    (st : gromStore) : Option GoErr × gromStore :=
  match DB.deleteMessages deleteFail st.sessionID st.db with
  | (some e, db1) => (some e, { st with db := db1 })
  | (none, db1) =>
    match st.cache.Reset now with
    | (some e, c1) => (some e, { st with db := db1, cache := c1 })
    | (none, c1) =>
      match DB.updateSessionReset updateFail st.sessionID c1.CreationTime
          c1.NextTargetMsgSeqNum c1.NextSenderMsgSeqNum db1 with
      | (r, db2) => (r, { st with db := db2, cache := c1 })

/-- `gromStore.populateCache`: `First` the session row; if found, load
creation time and both counters into the cache (wrapping a cache-set
failure); if `ErrRecordNotFound`, INSERT a fresh row seeded from the
cache; any other error propagates bare. -/
def gromStore.populateCache (findFail insertFail : Bool) (st : gromStore) :
    Option GoErr × gromStore :=
  match DB.findSession findFail st.sessionID st.db with
  | .ok dest =>
    let c0 := { st.cache with creationTime := dest.creationTime }
    match c0.SetNextTargetMsgSeqNum dest.incomingSeqNum with
    | (some e, c1) => (some (.wrap "cache set next target" e), { st with cache := c1 })
    | (none, c1) =>
      match c1.SetNextSenderMsgSeqNum dest.outgoingSeqNum with
      | (some e, c2) => (some (.wrap "cache set next sender" e), { st with cache := c2 })
      | (none, c2) => (none, { st with cache := c2 })
  | .error .recordNotFound =>
    match DB.insertSession insertFail
        ⟨st.sessionID, st.cache.creationTime, st.cache.NextTargetMsgSeqNum,
         st.cache.NextSenderMsgSeqNum⟩ st.db with
    | (r, db1) => (r, { st with db := db1 })
  | .error e => (some e, st)

/-- `gromStore.Refresh`: reset the cache then repopulate it from the
database. -/
def gromStore.Refresh (findFail insertFail : Bool) (now : Int)
    (st : gromStore) : Option GoErr × gromStore :=
  match st.cache.Reset now with
  | (some e, c1) => (some e, { st with cache := c1 })
  | (none, c1) => gromStore.populateCache findFail insertFail { st with cache := c1 }

/-- `gromStore.initTables`: create each of the two tables when absent,
wrapping a creation failure as "gromStore.initTables err". -/
def gromStore.initTables (createSessFail createMsgFail : Bool) (db : DB) :
    Option GoErr × DB :=
  if ¬ db.hasSessionsTable ∧ createSessFail then
    (some (.wrap "gromStore.initTables err" (.dbErr "create table sessions")), db)
  else
    let db1 := { db with hasSessionsTable := true }
    if ¬ db1.hasMessagesTable ∧ createMsgFail then
      (some (.wrap "gromStore.initTables err" (.dbErr "create table messages")), db1)
    else (none, { db1 with hasMessagesTable := true })

/-- The configuration surface `gormStoreFactory.Create` consults:
whether the global settings contain the DynamicSessions key, what
`BoolSetting(DynamicSessions)` would return, and the set of configured
SessionIDs (the keys of `SessionSettings()`). -/
structure Settings where
  hasDynamicSessions : Bool
  dynamicSessionsSetting : Except GoErr Bool
  sessionSettingsKeys : List SessionID
deriving Repr

/-- `gormStoreFactory.Create`: read the dynamic-sessions flag (a bad
setting value fails the call), admit the session if configured or dynamic
sessions are on, then run table init (wrapped "initTables err"), cache
reset (wrapped "cache reset") and populate (returned bare). -/
def gormStoreFactory.Create (settings : Settings)
    (createSessFail createMsgFail findFail insertFail : Bool) (now : Int)
    (sessionID : SessionID) (db : DB) : Except GoErr gromStore :=
  let dynStep : Except GoErr Bool :=
    if settings.hasDynamicSessions then settings.dynamicSessionsSetting
    else .ok false
  match dynStep with
  | .error e => .error e
  | .ok dynamicSessions =>
    if ¬ sessionID ∈ settings.sessionSettingsKeys ∧ ¬ dynamicSessions then
      .error .unknownSessionCreate
    else
      let store : gromStore :=
        { sessionID := sessionID
          cache := { creationTime := 0, nextSenderSeqNum := 0, nextTargetSeqNum := 0 }
          db := db }
      match gromStore.initTables createSessFail createMsgFail store.db with
      | (some e, _) => .error (.wrap "initTables err" e)
      | (none, db1) =>
        match (store.cache.Reset now : Option GoErr × memoryStore) with
        | (some e, _) => .error (.wrap "cache reset" e)
        | (none, c1) =>
          match gromStore.populateCache findFail insertFail
              { store with db := db1, cache := c1 } with
          | (some e, _) => .error e
          | (none, st2) => .ok st2

/-- FIX header tag numbers used by `Send` (tagBeginString etc.). -/
def tagBeginString : Nat := 8

def tagSenderCompID : Nat := 49

def tagSenderSubID : Nat := 50

def tagTargetCompID : Nat := 56

def tagTargetSubID : Nat := 57

/-- A message header: a field map from tag to string value (the
`FIXString` reads the registry performs). -/
structure FieldMap where
  fields : List (Nat × String)
deriving DecidableEq, Repr

/-- `Header.GetField(tag, &out)`: the field's value, or the field-missing
error when the tag is absent. -/
def FieldMap.GetField (tag : Nat) (h : FieldMap) : Except GoErr String :=
  match h.fields.find? (fun p => p.1 = tag) with
  | some p => .ok p.2
  | none => .error (.conditionallyRequiredFieldMissing tag)

/-- A `GetField` whose error is discarded, as `Send` does for the sub-ID
tags: the Go out-variable keeps its zero value `""` when the read fails. -/
def FieldMap.getFieldOrEmpty (tag : Nat) (h : FieldMap) : String :=
  match h.GetField tag with
  | .ok v => v
  | .error _ => ""

/-- A message, reduced to the header fields the registry reads.
`Messagable.ToMessage` is the identity on it. -/
structure Message where
  header : FieldMap
deriving DecidableEq, Repr

/-- Modelled from the spec: the session handle the registry stores is not
under src/; per the spec's session-handle contract it exposes its
SessionID, `queueForSend`, and a MessageStore-like `store` with `Close()`.
The two booleans fix the outcomes of those two fallible collaborators. -/
structure session where
  sessionID : SessionID
  storeCloseFail : Bool
  queueFail : Bool
  queue : List Message
deriving DecidableEq, Repr

/-- Modelled from the spec: `s.store.Close()`, which may fail. -/
def session.storeClose (s : session) : Option GoErr :=
  if s.storeCloseFail then some (.dbErr "store close") else none

/-- Modelled from the spec: `s.queueForSend(msg)` hands the message to the
session's outbound queue, or fails. -/
def session.queueForSend (msg : Message) (s : session) :
    Option GoErr × session :=
  if s.queueFail then (some (.queueErr "queue for send"), s)
  else (none, { s with queue := s.queue ++ [msg] })

/-- The process-wide `sessions` map, as an association list with unique
keys (every operation preserves key uniqueness, as the Go map does). -/
def Registry : Type := List (SessionID × session)

/-- `lookupSession`: read-only lookup; `none` is Go's `ok == false`. -/
def lookupSession (sessionID : SessionID) (reg : Registry) :
    Option session :=
  (List.find? (fun p => p.1 = sessionID) reg).map Prod.snd

/-- `registerSession`: fail with `errDuplicateSessionID` when the handle's
SessionID is already present, otherwise insert it. -/
def registerSession (s : session) (reg : Registry) :
    Option GoErr × Registry :=
  match lookupSession s.sessionID reg with
  | some _ => (some .duplicateSessionID, reg)
  | none => (none, (s.sessionID, s) :: reg)

/-- `UnregisterSession`: unknown-session error when absent; otherwise
close the handle's store and, only if that close succeeded, delete the
entry. -/
def UnregisterSession (sessionID : SessionID) (reg : Registry) :
    Option GoErr × Registry :=
  match lookupSession sessionID reg with
  | some s =>
    match s.storeClose with
    | some e => (some e, reg)
    | none => (none, List.filter (fun p => ¬ p.1 = sessionID) reg)
  | none => (some .unknownSession, reg)

/-- `SendToTarget`: look the session up by id (unknown-session error on a
miss) and enqueue the message on it; the registry holds the handle by
pointer, so the enqueue is visible through the registry. -/
def SendToTarget (m : Message) (sessionID : SessionID) (reg : Registry) :
    Option GoErr × Registry :=
  match lookupSession sessionID reg with
  | none => (some .unknownSession, reg)
  | some s =>
    let (r, s1) := s.queueForSend m
    (r, List.map (fun p => if p.1 = sessionID then (p.1, s1) else p) reg)

/-- `Send`: read BeginString, TargetCompID, SenderCompID (each read error
returns immediately), read the sub-IDs ignoring errors, build the
SessionID — with both sub-IDs exactly when both are non-empty — and
delegate to `SendToTarget`. -/
def Send (m : Message) (reg : Registry) : Option GoErr × Registry :=
  match m.header.GetField tagBeginString with
  | .error e => (some e, reg)
  | .ok beginString =>
    match m.header.GetField tagTargetCompID with
    | .error e => (some e, reg)
    | .ok targetCompID =>
      match m.header.GetField tagSenderCompID with
      | .error e => (some e, reg)
      | .ok senderCompID =>
        let senderSubID := m.header.getFieldOrEmpty tagSenderSubID
        let targetSubID := m.header.getFieldOrEmpty tagTargetSubID
        if 0 < senderSubID.length ∧ 0 < targetSubID.length then
          SendToTarget m
            { BeginString := beginString, TargetCompID := targetCompID,
              TargetSubID := targetSubID, TargetLocationID := "",
              SenderCompID := senderCompID, SenderSubID := senderSubID,
              SenderLocationID := "", Qualifier := "" } reg
        else
          SendToTarget m
            { BeginString := beginString, TargetCompID := targetCompID,
              TargetSubID := "", TargetLocationID := "",
              SenderCompID := senderCompID, SenderSubID := "",
              SenderLocationID := "", Qualifier := "" } reg

/-! Concrete values used by witnesses and counterexamples. -/

/-- A concrete session identity. -/
def sidA : SessionID :=
  ⟨"FIX.4.2", "TARGET", "", "", "SENDER", "", "", ""⟩

/-- A database holding one session row for `sidA` and no messages. -/
def dbW : DB := ⟨true, true, [⟨sidA, 0, 1, 1⟩], [], 0⟩

/-- A store for `sidA` over `dbW`, with both counters at 1. -/
def stW : gromStore := ⟨sidA, ⟨0, 1, 1⟩, dbW⟩

/-! Helper lemmas about the conditional row updates issued by the UPDATE
statements. -/

theorem outgoing_of_mem_update (sid : SessionID) (n : Int)
    (l : List GormSessions) :
    ∀ r ∈ l.map (fun r =>
      if r.sessionID = sid then { r with outgoingSeqNum := n } else r),
      r.sessionID = sid → r.outgoingSeqNum = n := by
  intro r hr hsid
  rcases List.mem_map.mp hr with ⟨a, -, rfl⟩
  by_cases hc : a.sessionID = sid
  · simp [hc]
  · simp [hc] at hsid

theorem incoming_of_mem_update (sid : SessionID) (n : Int)
    (l : List GormSessions) :
    ∀ r ∈ l.map (fun r =>
      if r.sessionID = sid then { r with incomingSeqNum := n } else r),
      r.sessionID = sid → r.incomingSeqNum = n := by
  intro r hr hsid
  rcases List.mem_map.mp hr with ⟨a, -, rfl⟩
  by_cases hc : a.sessionID = sid
  · simp [hc]
  · simp [hc] at hsid

/-- C1: `SetNextSenderMsgSeqNum(n)` and `SetNextTargetMsgSeqNum(n)` are
write-through: when the durable UPDATE succeeds the call succeeds and the
cache (and every matching durable row) holds `n`; when the durable UPDATE
fails the call returns that error and both the cache and the database are
left unchanged — the cache never advances ahead of durable state. -/
theorem setNextSeqNum_write_through (st : gromStore) (n : Int) :
    ((gromStore.SetNextSenderMsgSeqNum false n st).1 = none ∧
      (gromStore.SetNextSenderMsgSeqNum false n st).2.NextSenderMsgSeqNum = n ∧
      ∀ r ∈ (gromStore.SetNextSenderMsgSeqNum false n st).2.db.sessions,
        r.sessionID = st.sessionID → r.outgoingSeqNum = n) ∧
    ((gromStore.SetNextSenderMsgSeqNum true n st).1 =
        some (.dbErr "update outgoing_seqnum") ∧
      (gromStore.SetNextSenderMsgSeqNum true n st).2.cache = st.cache ∧
      (gromStore.SetNextSenderMsgSeqNum true n st).2.db = st.db) ∧
    ((gromStore.SetNextTargetMsgSeqNum false n st).1 = none ∧
      (gromStore.SetNextTargetMsgSeqNum false n st).2.NextTargetMsgSeqNum = n ∧
      ∀ r ∈ (gromStore.SetNextTargetMsgSeqNum false n st).2.db.sessions,
        r.sessionID = st.sessionID → r.incomingSeqNum = n) ∧
    ((gromStore.SetNextTargetMsgSeqNum true n st).1 =
        some (.dbErr "update incoming_seqnum") ∧
      (gromStore.SetNextTargetMsgSeqNum true n st).2.cache = st.cache ∧
      (gromStore.SetNextTargetMsgSeqNum true n st).2.db = st.db) := by
  refine ⟨⟨rfl, rfl, ?_⟩, ⟨rfl, rfl, rfl⟩, ⟨rfl, rfl, ?_⟩, ⟨rfl, rfl, rfl⟩⟩
  · exact outgoing_of_mem_update st.sessionID n st.db.sessions
  · exact incoming_of_mem_update st.sessionID n st.db.sessions

/-- C2 counterexample: at the concrete store `stW` (both counters 1), when
the durable UPDATE fails, `IncrNextSenderMsgSeqNum` returns the error but
the cache HAS changed — it was incremented in place before the durable
write was attempted, so it now sits one ahead of the durable record.  This
refutes "a durable-write failure leaves the cache unchanged". -/
theorem incrNextSeqNum_cache_advances_on_db_failure :
    (gromStore.IncrNextSenderMsgSeqNum true stW).1.isSome = true ∧
    (gromStore.IncrNextSenderMsgSeqNum true stW).2.cache ≠ stW.cache ∧
    (gromStore.IncrNextSenderMsgSeqNum true stW).2.cache.nextSenderSeqNum = 2 ∧
    stW.cache.nextSenderSeqNum = 1 := by
  refine ⟨rfl, ?_, rfl, rfl⟩
  decide

/-- C2 (amended): the Incr operations increment the cache counter in
place and then delegate to the corresponding Set with the incremented
value; a local increment failure (overflow of the representable range)
fails the operation before any durable write, leaving the durable store
untouched; a durable-write failure returns the error and leaves the
durable store unchanged, but the cache remains at the incremented value,
one ahead of the durable record. -/
theorem incrNextSeqNum_delegates_to_set (st : gromStore) :
    (st.cache.nextSenderSeqNum + 1 ≤ goIntMax →
      ∀ fail, gromStore.IncrNextSenderMsgSeqNum fail st =
        gromStore.SetNextSenderMsgSeqNum fail (st.cache.nextSenderSeqNum + 1)
          { st with cache :=
            { st.cache with nextSenderSeqNum := st.cache.nextSenderSeqNum + 1 } }) ∧
    (goIntMax < st.cache.nextSenderSeqNum + 1 →
      ∀ fail, (gromStore.IncrNextSenderMsgSeqNum fail st).1 =
          some (.wrap "cache incr next" .cacheOverflow) ∧
        (gromStore.IncrNextSenderMsgSeqNum fail st).2.db = st.db) ∧
    (st.cache.nextSenderSeqNum + 1 ≤ goIntMax →
      (gromStore.IncrNextSenderMsgSeqNum true st).1.isSome = true ∧
      (gromStore.IncrNextSenderMsgSeqNum true st).2.db = st.db ∧
      (gromStore.IncrNextSenderMsgSeqNum true st).2.cache.nextSenderSeqNum =
        st.cache.nextSenderSeqNum + 1) ∧
    (st.cache.nextTargetSeqNum + 1 ≤ goIntMax →
      ∀ fail, gromStore.IncrNextTargetMsgSeqNum fail st =
        gromStore.SetNextTargetMsgSeqNum fail (st.cache.nextTargetSeqNum + 1)
          { st with cache :=
            { st.cache with nextTargetSeqNum := st.cache.nextTargetSeqNum + 1 } }) ∧
    (goIntMax < st.cache.nextTargetSeqNum + 1 →
      ∀ fail, (gromStore.IncrNextTargetMsgSeqNum fail st).1 =
          some (.wrap "cache incr next" .cacheOverflow) ∧
        (gromStore.IncrNextTargetMsgSeqNum fail st).2.db = st.db) ∧
    (st.cache.nextTargetSeqNum + 1 ≤ goIntMax →
      (gromStore.IncrNextTargetMsgSeqNum true st).1.isSome = true ∧
      (gromStore.IncrNextTargetMsgSeqNum true st).2.db = st.db ∧
      (gromStore.IncrNextTargetMsgSeqNum true st).2.cache.nextTargetSeqNum =
        st.cache.nextTargetSeqNum + 1) := by
  have hs : ∀ h : st.cache.nextSenderSeqNum + 1 ≤ goIntMax,
      st.cache.IncrNextSenderMsgSeqNum =
        (none, { st.cache with nextSenderSeqNum := st.cache.nextSenderSeqNum + 1 }) := by
    intro h
    rw [memoryStore.IncrNextSenderMsgSeqNum, if_neg (not_lt.mpr h)]
  have ht : ∀ h : st.cache.nextTargetSeqNum + 1 ≤ goIntMax,
      st.cache.IncrNextTargetMsgSeqNum =
        (none, { st.cache with nextTargetSeqNum := st.cache.nextTargetSeqNum + 1 }) := by
    intro h
    rw [memoryStore.IncrNextTargetMsgSeqNum, if_neg (not_lt.mpr h)]
  have hso : ∀ h : goIntMax < st.cache.nextSenderSeqNum + 1,
      st.cache.IncrNextSenderMsgSeqNum = (some .cacheOverflow, st.cache) := by
    intro h
    rw [memoryStore.IncrNextSenderMsgSeqNum, if_pos h]
  have hto : ∀ h : goIntMax < st.cache.nextTargetSeqNum + 1,
      st.cache.IncrNextTargetMsgSeqNum = (some .cacheOverflow, st.cache) := by
    intro h
    rw [memoryStore.IncrNextTargetMsgSeqNum, if_pos h]
  refine ⟨fun h fail => ?_, fun h fail => ?_, fun h => ?_,
    fun h fail => ?_, fun h fail => ?_, fun h => ?_⟩
  · simp [gromStore.IncrNextSenderMsgSeqNum, hs h, memoryStore.NextSenderMsgSeqNum]
  · simp [gromStore.IncrNextSenderMsgSeqNum, hso h]
  · simp [gromStore.IncrNextSenderMsgSeqNum, hs h,
      gromStore.SetNextSenderMsgSeqNum, DB.updateOutgoingSeqNum,
      memoryStore.NextSenderMsgSeqNum]
  · simp [gromStore.IncrNextTargetMsgSeqNum, ht h, memoryStore.NextTargetMsgSeqNum]
  · simp [gromStore.IncrNextTargetMsgSeqNum, hto h]
  · simp [gromStore.IncrNextTargetMsgSeqNum, ht h,
      gromStore.SetNextTargetMsgSeqNum, DB.updateIncomingSeqNum,
      memoryStore.NextTargetMsgSeqNum]

/-- C3: when the INSERT of `SaveMessage(seqNum, msg)` fails (and the
test-scaffolding gate is not tripped, i.e. at most one open `fix_test`
row, so the insert is actually attempted), the store re-counts the log
entries for this session's `(SessionID, seqNum)`: a count of exactly one
makes the call succeed as a harmless duplicate, any other count returns
the original insertion error; the database is unchanged either way. -/
theorem saveMessage_swallows_verified_duplicate (st : gromStore)
    (seqNum : Int) (msg : List Nat) (htest : st.db.fixTestOpen ≤ 1) :
    (DB.countMessages st.sessionID seqNum st.db = 1 →
      gromStore.SaveMessage true false seqNum msg st = (none, st)) ∧
    (¬ DB.countMessages st.sessionID seqNum st.db = 1 →
      gromStore.SaveMessage true false seqNum msg st =
        (some (.dbErr "insert message"), st)) := by
  have hgate : ¬ 1 < st.db.fixTestOpen := not_lt.mpr htest
  constructor
  · intro h
    simp [gromStore.SaveMessage, hgate, DB.insertMessage, h]
  · intro h
    simp [gromStore.SaveMessage, hgate, DB.insertMessage, h]

/-- A store holding exactly one already-persisted copy of the message with
sequence number 5. -/
def stDup : gromStore :=
  ⟨sidA, ⟨0, 1, 1⟩, ⟨true, true, [⟨sidA, 0, 1, 1⟩], [⟨sidA, 5, [1, 2]⟩], 0⟩⟩

theorem saveMessage_swallows_verified_duplicate_witness :
    stDup.db.fixTestOpen ≤ 1 ∧
    ((DB.countMessages stDup.sessionID 5 stDup.db = 1 →
      gromStore.SaveMessage true false 5 [1, 2] stDup = (none, stDup)) ∧
    (¬ DB.countMessages stDup.sessionID 5 stDup.db = 1 →
      gromStore.SaveMessage true false 5 [1, 2] stDup =
        (some (.dbErr "insert message"), stDup))) :=
  ⟨by decide, saveMessage_swallows_verified_duplicate stDup 5 [1, 2] (by decide)⟩

/-- After deleting every entry whose key equals `sid`, looking `sid` up
finds nothing. -/
theorem lookupSession_after_erase (sid : SessionID) (reg : Registry) :
    lookupSession sid (List.filter (fun p => ¬ p.1 = sid) reg) = none := by
  unfold lookupSession
  rw [Option.map_eq_none', List.find?_eq_none]
  intro x hx
  have hx2 := (List.mem_filter.mp hx).2
  simp at hx2 ⊢
  exact hx2

/-- C6: registering a handle whose SessionID is already present fails with
the duplicate-session error and leaves the registry unchanged;
unregistering an identity that is not present fails with the
unknown-session error; and after a successful `UnregisterSession`, a
`lookupSession` for that identity reports not-found. -/
theorem registry_register_unregister_lookup (reg : Registry) (s : session)
    (sid : SessionID) :
    ((lookupSession s.sessionID reg).isSome = true →
      registerSession s reg = (some .duplicateSessionID, reg)) ∧
    (lookupSession sid reg = none →
      UnregisterSession sid reg = (some .unknownSession, reg)) ∧
    (∀ reg1, UnregisterSession sid reg = (none, reg1) →
      lookupSession sid reg1 = none) := by
  refine ⟨?_, ?_, ?_⟩
  · intro h
    rcases Option.isSome_iff_exists.mp h with ⟨x, hx⟩
    simp [registerSession, hx]
  · intro h
    simp [UnregisterSession, h]
  · intro reg1 h
    unfold UnregisterSession at h
    rcases hl : lookupSession sid reg with _ | s0
    · rw [hl] at h
      simp at h
    · rw [hl] at h
      dsimp only at h
      rcases hc : s0.storeClose with _ | e
      · rw [hc] at h
        simp only [Prod.mk.injEq] at h
        rw [← h.2]
        exact lookupSession_after_erase sid reg
      · rw [hc] at h
        simp at h

/-- A session handle whose store's `Close` fails. -/
def sessW : session := ⟨sidA, true, false, []⟩

/-- A registry holding only `sessW` under `sidA`. -/
def regW : Registry := [(sidA, sessW)]

/-- C10: when the registered handle's store `Close()` fails inside
`UnregisterSession`, the call returns that error and the entry is not
removed: the registry is unchanged and a subsequent `lookupSession` still
finds the session. -/
theorem unregister_close_failure_keeps_session (reg : Registry)
    (sid : SessionID) (s : session) (hl : lookupSession sid reg = some s)
    (hc : s.storeCloseFail = true) :
    UnregisterSession sid reg = (some (.dbErr "store close"), reg) ∧
    lookupSession sid (UnregisterSession sid reg).2 = some s := by
  have hclose : s.storeClose = some (.dbErr "store close") := by
    rw [session.storeClose, if_pos hc]
  have key : UnregisterSession sid reg = (some (.dbErr "store close"), reg) := by
    unfold UnregisterSession
    rw [hl]
    dsimp only
    rw [hclose]
  exact ⟨key, by rw [key]; exact hl⟩

theorem unregister_close_failure_keeps_session_witness :
    lookupSession sidA regW = some sessW ∧ sessW.storeCloseFail = true ∧
    (UnregisterSession sidA regW = (some (.dbErr "store close"), regW) ∧
      lookupSession sidA (UnregisterSession sidA regW).2 = some sessW) :=
  ⟨by decide, by decide,
    unregister_close_failure_keeps_session regW sidA sessW (by decide) (by decide)⟩

/-- Follows the spec's words: the SessionID `Send` should derive — built
from BeginString, SenderCompID and TargetCompID, and including SenderSubID
and TargetSubID exactly when both are non-empty; all other fields empty. -/
def specDerivedSessionID (beginString targetCompID senderCompID
    senderSubID targetSubID : String) : SessionID :=
  if 0 < senderSubID.length ∧ 0 < targetSubID.length then
    { BeginString := beginString, TargetCompID := targetCompID,
      TargetSubID := targetSubID, TargetLocationID := "",
      SenderCompID := senderCompID, SenderSubID := senderSubID,
      SenderLocationID := "", Qualifier := "" }
  else
    { BeginString := beginString, TargetCompID := targetCompID,
      TargetSubID := "", TargetLocationID := "",
      SenderCompID := senderCompID, SenderSubID := "",
      SenderLocationID := "", Qualifier := "" }

/-- C7: when BeginString, TargetCompID and SenderCompID are all readable,
`Send` delegates to `SendToTarget` with exactly the spec's derived
SessionID (sub-IDs included only when both are non-empty); when one of the
three required header reads fails, `Send` returns that read's error with
the registry untouched — no lookup is attempted. -/
theorem send_derives_key_and_delegates (reg : Registry) (m : Message) :
    (∀ b t s, m.header.GetField tagBeginString = .ok b →
      m.header.GetField tagTargetCompID = .ok t →
      m.header.GetField tagSenderCompID = .ok s →
      Send m reg = SendToTarget m
        (specDerivedSessionID b t s (m.header.getFieldOrEmpty tagSenderSubID)
          (m.header.getFieldOrEmpty tagTargetSubID)) reg) ∧
    (∀ e, m.header.GetField tagBeginString = .error e →
      Send m reg = (some e, reg)) ∧
    (∀ b e, m.header.GetField tagBeginString = .ok b →
      m.header.GetField tagTargetCompID = .error e →
      Send m reg = (some e, reg)) ∧
    (∀ b t e, m.header.GetField tagBeginString = .ok b →
      m.header.GetField tagTargetCompID = .ok t →
      m.header.GetField tagSenderCompID = .error e →
      Send m reg = (some e, reg)) := by
  refine ⟨?_, ?_, ?_, ?_⟩
  · intro b t s hb ht hs
    unfold Send
    rw [hb, ht, hs]
    dsimp only
    unfold specDerivedSessionID
    split
    · rfl
    · rfl
  · intro e hb
    unfold Send
    rw [hb]
  · intro b e hb ht
    unfold Send
    rw [hb]
    dsimp only
    rw [ht]
  · intro b t e hb ht hs
    unfold Send
    rw [hb]
    dsimp only
    rw [ht]
    dsimp only
    rw [hs]

/-- C8: a successful `GetMessages(b, e)` reports no error and returns the
`message` column of exactly those stored rows of this session whose
sequence number lies in the inclusive range `[b, e]`, in ascending
sequence-number order; when `b > e` or no row is in range it returns the
empty sequence. -/
theorem getMessages_inclusive_range_sorted (st : gromStore) (b e : Int) :
    (gromStore.GetMessages false b e st).1 = none ∧
    (gromStore.GetMessages false b e st).2 =
      ((st.db.messagesInRange st.sessionID b e).insertionSort msgSeqLe).map
        GormMessages.message ∧
    List.Sorted msgSeqLe
      ((st.db.messagesInRange st.sessionID b e).insertionSort msgSeqLe) ∧
    (∀ r : GormMessages,
      r ∈ (st.db.messagesInRange st.sessionID b e).insertionSort msgSeqLe ↔
        r ∈ st.db.messages ∧ r.sessionID = st.sessionID ∧
          b ≤ r.msgSeqNum ∧ r.msgSeqNum ≤ e) ∧
    (e < b → (gromStore.GetMessages false b e st).2 = []) ∧
    (st.db.messagesInRange st.sessionID b e = [] →
      (gromStore.GetMessages false b e st).2 = []) := by
  refine ⟨rfl, rfl, List.sorted_insertionSort msgSeqLe _, ?_, ?_, ?_⟩
  · intro r
    rw [(List.perm_insertionSort msgSeqLe
      (st.db.messagesInRange st.sessionID b e)).mem_iff]
    unfold DB.messagesInRange
    rw [List.mem_filter]
    simp
  · intro h
    have hnil : st.db.messagesInRange st.sessionID b e = [] := by
      unfold DB.messagesInRange
      rw [List.filter_eq_nil_iff]
      intro a _
      simp only [decide_eq_true_eq]
      rintro ⟨-, h1, h2⟩
      omega
    simp [gromStore.GetMessages, hnil]
  · intro hnil
    simp [gromStore.GetMessages, hnil]

/-- After the session's rows are deleted, the ranged query of that session
matches nothing. -/
theorem messagesInRange_after_delete (sid : SessionID) (b e : Int)
    (l : List GormMessages) :
    (l.filter (fun m => ¬ m.sessionID = sid)).filter
      (fun m => m.sessionID = sid ∧ b ≤ m.msgSeqNum ∧ m.msgSeqNum ≤ e) = [] := by
  rw [List.filter_eq_nil_iff]
  intro a ha
  have h2 := (List.mem_filter.mp ha).2
  simp only [decide_eq_true_eq] at h2 ⊢
  rintro ⟨h3, -, -⟩
  exact h2 h3

/-- Rows surviving the conditional three-field UPDATE of `Reset` that match
the session hold the reset values. -/
theorem resetFields_of_mem_update (sid : SessionID) (ct inc outg : Int)
    (l : List GormSessions) :
    ∀ r ∈ l.map (fun r =>
      if r.sessionID = sid then
        { r with creationTime := ct, incomingSeqNum := inc,
                 outgoingSeqNum := outg }
      else r),
      r.sessionID = sid →
        r.creationTime = ct ∧ r.incomingSeqNum = inc ∧ r.outgoingSeqNum = outg := by
  intro r hr hsid
  rcases List.mem_map.mp hr with ⟨a, -, rfl⟩
  by_cases hc : a.sessionID = sid
  · simp [hc]
  · simp [hc] at hsid

/-- C9: a successful `Reset()` reports no error, leaves both in-memory
counters at 1, removes every message-log entry of this session, updates
every matching session row to the reset state (creation time `now`, both
sequence numbers 1), and immediately afterwards `GetMessages` over any
range of this session returns the empty sequence without error. -/
theorem reset_restores_fresh_session (st : gromStore) (now : Int) :
    (gromStore.Reset false false now st).1 = none ∧
    (gromStore.Reset false false now st).2.NextSenderMsgSeqNum = 1 ∧
    (gromStore.Reset false false now st).2.NextTargetMsgSeqNum = 1 ∧
    (∀ m ∈ (gromStore.Reset false false now st).2.db.messages,
      ¬ m.sessionID = st.sessionID) ∧
    (∀ r ∈ (gromStore.Reset false false now st).2.db.sessions,
      r.sessionID = st.sessionID →
        r.creationTime = now ∧ r.incomingSeqNum = 1 ∧ r.outgoingSeqNum = 1) ∧
    (∀ b e, gromStore.GetMessages false b e (gromStore.Reset false false now st).2 =
      (none, [])) := by
  refine ⟨rfl, rfl, rfl, ?_, ?_, ?_⟩
  · intro m hm
    have h2 := (List.mem_filter.mp hm).2
    simpa using h2
  · exact resetFields_of_mem_update st.sessionID now 1 1 st.db.sessions
  · intro b e
    have hnil : DB.messagesInRange
        (gromStore.Reset false false now st).2.sessionID b e
        (gromStore.Reset false false now st).2.db = [] :=
      messagesInRange_after_delete st.sessionID b e st.db.messages
    simp [gromStore.GetMessages, hnil]

/-- A configuration that knows only `sidA`, with no dynamic-sessions key. -/
def settingsW : Settings := ⟨false, .ok false, [sidA]⟩

/-- An empty backend: no tables, no rows. -/
def dbEmpty : DB := ⟨false, false, [], [], 0⟩

/-- C5 counterexample: at the concrete configured session `sidA`, when the
populate phase's SELECT fails, `Create` returns the bare database error —
not an error wrapped with the failing phase — refuting "wrapping any
failure of those phases". -/
theorem create_populate_failure_unwrapped :
    gormStoreFactory.Create settingsW false false true false 0 sidA dbEmpty =
      .error (.dbErr "find session") ∧
    (GoErr.dbErr "find session").isWrapped = false := ⟨rfl, rfl⟩

/-- C5 (amended): `Create(sessionID)` fails with the unknown-session error
when the sessionID is not configured and dynamic sessions are not enabled
(a malformed dynamic-sessions setting fails with its own error first);
when the sessionID is configured, or dynamic sessions are enabled, the
admission check passes and Create proceeds to table init, cache reset and
populate — a table-init failure is returned wrapped with its phase, but a
populate failure is propagated unwrapped. -/
theorem create_admission_and_phase_errors (g : Settings) (sid : SessionID)
    (db : DB) (now : Int) (f1 f2 ff fi : Bool) :
    (∀ e, g.hasDynamicSessions = true → g.dynamicSessionsSetting = .error e →
      gormStoreFactory.Create g f1 f2 ff fi now sid db = .error e) ∧
    (g.hasDynamicSessions = false → ¬ sid ∈ g.sessionSettingsKeys →
      gormStoreFactory.Create g f1 f2 ff fi now sid db =
        .error .unknownSessionCreate) ∧
    (g.hasDynamicSessions = true → g.dynamicSessionsSetting = .ok false →
      ¬ sid ∈ g.sessionSettingsKeys →
      gormStoreFactory.Create g f1 f2 ff fi now sid db =
        .error .unknownSessionCreate) ∧
    (sid ∈ g.sessionSettingsKeys → g.hasDynamicSessions = false →
      db.hasSessionsTable = false → f1 = true →
      gormStoreFactory.Create g f1 f2 ff fi now sid db =
        .error (.wrap "initTables err"
          (.wrap "gromStore.initTables err" (.dbErr "create table sessions")))) ∧
    (sid ∈ g.sessionSettingsKeys → g.hasDynamicSessions = false →
      ff = true → f1 = false → f2 = false →
      gormStoreFactory.Create g f1 f2 ff fi now sid db =
        .error (.dbErr "find session")) ∧
    (∀ r, sid ∈ g.sessionSettingsKeys → g.hasDynamicSessions = false →
      f1 = false → f2 = false → ff = false → fi = false →
      db.sessions.find? (fun r0 => r0.sessionID = sid) = some r →
      gormStoreFactory.Create g f1 f2 ff fi now sid db =
        .ok ⟨sid, ⟨r.creationTime, r.outgoingSeqNum, r.incomingSeqNum⟩,
          { db with hasSessionsTable := true, hasMessagesTable := true }⟩) ∧
    (¬ sid ∈ g.sessionSettingsKeys → g.hasDynamicSessions = true →
      g.dynamicSessionsSetting = .ok true →
      f1 = false → f2 = false → ff = false → fi = false →
      db.sessions.find? (fun r0 => r0.sessionID = sid) = none →
      gormStoreFactory.Create g f1 f2 ff fi now sid db =
        .ok ⟨sid, ⟨now, 1, 1⟩,
          { db with
              hasSessionsTable := true
              hasMessagesTable := true
              sessions := db.sessions ++ [⟨sid, now, 1, 1⟩] }⟩) := by
  refine ⟨?_, ?_, ?_, ?_, ?_, ?_, ?_⟩
  · intro e h1 h2
    simp [gormStoreFactory.Create, h1, h2]
  · intro h1 h2
    simp [gormStoreFactory.Create, h1, h2]
  · intro h1 h2 h3
    simp [gormStoreFactory.Create, h1, h2, h3]
  · intro h1 h2 h3 h4
    simp [gormStoreFactory.Create, gromStore.initTables, h1, h2, h3, h4]
  · intro h1 h2 h3 h4 h5
    simp [gormStoreFactory.Create, gromStore.initTables,
      gromStore.populateCache, DB.findSession, memoryStore.Reset,
      h1, h2, h3, h4, h5]
  · intro r h1 h2 h3 h4 h5 h6 hfind
    simp [gormStoreFactory.Create, gromStore.initTables,
      gromStore.populateCache, DB.findSession, memoryStore.Reset,
      memoryStore.SetNextTargetMsgSeqNum, memoryStore.SetNextSenderMsgSeqNum,
      h1, h2, h3, h4, h5, h6, hfind]
  · intro h1 h2 h3 h4 h5 h6 h7 hfind
    simp [gormStoreFactory.Create, gromStore.initTables,
      gromStore.populateCache, DB.findSession, DB.insertSession,
      memoryStore.Reset, memoryStore.NextTargetMsgSeqNum,
      memoryStore.NextSenderMsgSeqNum,
      h1, h2, h3, h4, h5, h6, h7, hfind]

/-- `N` consecutive `IncrNextSenderMsgSeqNum` calls with a healthy durable
store, stopping at the first error as a caller would. -/
def incrN : gromStore → Nat → Option GoErr × gromStore
  | st, 0 => (none, st)
  | st, n + 1 =>
    match incrN st n with
    | (none, st1) => gromStore.IncrNextSenderMsgSeqNum false st1
    | (some e, st1) => (some e, st1)

/-- Factory construction of the `sidA` store over the empty backend. -/
def freshResult : Except GoErr gromStore :=
  gormStoreFactory.Create settingsW false false false false 0 sidA dbEmpty

/-- The fresh `sidA` store: both counters 1, one seeded session row. -/
def st0 : gromStore := ⟨sidA, ⟨0, 1, 1⟩, ⟨true, true, [⟨sidA, 0, 1, 1⟩], [], 0⟩⟩

/-- The `sidA` store after `N` successful sender increments: cache and
durable row agree on next-sender `1 + N`. -/
def stateAt (N : Nat) : gromStore :=
  ⟨sidA, ⟨0, 1 + (N : Int), 1⟩, ⟨true, true, [⟨sidA, 0, 1, 1 + (N : Int)⟩], [], 0⟩⟩

theorem freshResult_ok : freshResult = .ok st0 := rfl

theorem incrN_characterised (N : Nat) :
    ∀ stN, incrN st0 N = (none, stN) → stN = stateAt N := by
  induction N with
  | zero =>
    intro stN h
    simp only [incrN, Prod.mk.injEq] at h
    rw [← h.2]
    simp [st0, stateAt]
  | succ n ih =>
    intro stN h
    simp only [incrN] at h
    rcases hprev : incrN st0 n with ⟨r, st1⟩
    rcases r with _ | e
    · rw [hprev] at h
      dsimp only at h
      have hst1 : st1 = stateAt n := ih st1 hprev
      subst hst1
      by_cases hov : goIntMax < 1 + (n : Int) + 1
      · have hfst : (gromStore.IncrNextSenderMsgSeqNum false (stateAt n)).1 =
            some (.wrap "cache incr next" .cacheOverflow) := by
          simp [gromStore.IncrNextSenderMsgSeqNum,
            memoryStore.IncrNextSenderMsgSeqNum, stateAt, hov]
        rw [h] at hfst
        simp at hfst
      · have hcalc : gromStore.IncrNextSenderMsgSeqNum false (stateAt n) =
            (none, stateAt (n + 1)) := by
          simp only [gromStore.IncrNextSenderMsgSeqNum,
            memoryStore.IncrNextSenderMsgSeqNum, stateAt, if_neg hov,
            memoryStore.NextSenderMsgSeqNum,
            gromStore.SetNextSenderMsgSeqNum, DB.updateOutgoingSeqNum,
            Bool.false_eq_true, if_false,
            memoryStore.SetNextSenderMsgSeqNum, List.map_cons, List.map_nil]
          simp only [Prod.mk.injEq, gromStore.mk.injEq, memoryStore.mk.injEq,
            DB.mk.injEq, GormSessions.mk.injEq, List.cons.injEq, List.nil_eq]
          norm_num
          omega
        rw [hcalc] at h
        simp only [Prod.mk.injEq] at h
        exact h.2.symm
    · rw [hprev] at h
      dsimp only at h
      simp at h

/-- C4: starting from the fresh store (`NextSenderMsgSeqNum() == 1`),
after any number `N` of successful `IncrNextSenderMsgSeqNum` calls the
counter reads `1 + N`, and a new MessageStore over the same durable
backend reproduces the value, both via `Refresh` and via a fresh factory
`Create` (populate). -/
theorem incr_sender_survives_restart (N : Nat) (stN : gromStore)
    (h : incrN st0 N = (none, stN)) :
    freshResult = .ok st0 ∧ st0.NextSenderMsgSeqNum = 1 ∧
    stN.NextSenderMsgSeqNum = 1 + (N : Int) ∧
    gromStore.Refresh false false 7 stN = (none, stN) ∧
    ∃ st1, gormStoreFactory.Create settingsW false false false false 7 sidA
        stN.db = .ok st1 ∧ st1.NextSenderMsgSeqNum = 1 + (N : Int) := by
  have hstN := incrN_characterised N stN h
  subst hstN
  refine ⟨rfl, rfl, rfl, ?_, ?_⟩
  · simp [gromStore.Refresh, memoryStore.Reset, gromStore.populateCache,
      DB.findSession, stateAt, memoryStore.SetNextTargetMsgSeqNum,
      memoryStore.SetNextSenderMsgSeqNum, List.find?]
  · refine ⟨⟨sidA, ⟨0, 1 + (N : Int), 1⟩, (stateAt N).db⟩, ?_, rfl⟩
    simp [gormStoreFactory.Create, settingsW, gromStore.initTables,
      memoryStore.Reset, gromStore.populateCache, DB.findSession, stateAt,
      memoryStore.SetNextTargetMsgSeqNum, memoryStore.SetNextSenderMsgSeqNum,
      List.find?]

theorem incr_sender_survives_restart_witness :
    incrN st0 3 = (none, stateAt 3) ∧
    (freshResult = .ok st0 ∧ st0.NextSenderMsgSeqNum = 1 ∧
      (stateAt 3).NextSenderMsgSeqNum = 1 + ((3 : Nat) : Int) ∧
      gromStore.Refresh false false 7 (stateAt 3) = (none, stateAt 3) ∧
      ∃ st1, gormStoreFactory.Create settingsW false false false false 7 sidA
        (stateAt 3).db = .ok st1 ∧
        st1.NextSenderMsgSeqNum = 1 + ((3 : Nat) : Int)) :=
  ⟨by decide, incr_sender_survives_restart 3 (stateAt 3) (by decide)⟩
